import Mathlib

/-!
Verification development for the GAIA agent-beats evaluation core.

The definitions below are shallow embeddings of the Python sources:
  src/utils/parse_tags.py        (tag extraction)
  src/green_agent/agent.py       (answer scoring, task runner, run aggregation)
  src/purple_agent/tools.py      (tool implementations)
  src/purple_agent/agent.py      (tool dispatch and the tool-calling loop)
External effects (the LLM completion call, the network transport, the
search backend, the restricted expression evaluator, wall-clock time) are
passed in as explicit oracle parameters; a Python exception crossing a
boundary is modelled as the error branch of an Except value.  Machine
floats are modelled as exact rationals.
-/

/-! ### Tag extraction, from src/utils/parse_tags.py

The Python code runs re.findall with the pattern <(.*?)>(.*?)</\1> under
DOTALL and builds a dict comprehension from the matches, stripping each
content.  The scanner below reproduces the leftmost-match, lazy-group,
literal-backreference semantics of that pattern: at each position that
starts with the character <, candidate names (the text up to each later >,
shortest first) are tried in order, and for the first name whose literal
closing tag occurs in the remainder, the content is the text up to the
first occurrence of that closing tag.
-/

/-- Does the second list start with the first list? -/
def startsWith : List Char → List Char → Bool
  | [], _ => true
  | _ :: _, [] => false
  | p :: ps, c :: cs => p = c && startsWith ps cs

/-- Split a list around the first occurrence of the pattern:
`splitFirst pat s = some (pre, post)` with `s = pre ++ pat ++ post` and
`pre` shortest possible; `none` when the pattern does not occur. -/
def splitFirst (pat : List Char) : List Char → Option (List Char × List Char)
  | [] => if startsWith pat [] then some ([], []) else none
  | c :: rest =>
    if startsWith pat (c :: rest) then some ([], (c :: rest).drop pat.length)
    else (splitFirst pat rest).map (fun pr => (c :: pr.1, pr.2))

/-- All ways to split a list at an occurrence of the character >, in order
of increasing position: these are the candidate lazy matches of the first
group of the pattern. -/
def gtSplits : List Char → List (List Char × List Char)
  | [] => []
  | c :: rest =>
    let tails := (gtSplits rest).map (fun pr => (c :: pr.1, pr.2))
    if c = '>' then ([], rest) :: tails else tails

/-- Try to match `name>content</name>` against the text following a <
character, with both groups lazy: shortest name first, then shortest
content.  Returns the name, the content and the remaining text. -/
def findTagMatch (s : List Char) : Option (List Char × List Char × List Char) :=
  (gtSplits s).findSome? (fun pr =>
    (splitFirst ('<' :: '/' :: (pr.1 ++ ['>'])) pr.2).map
      (fun cr => (pr.1, cr.1, cr.2)))

/-- Scan the text left to right collecting all matches of the tag pattern,
resuming after the end of each match, as re.findall does.  The fuel is an
upper bound on the number of scanning steps; the callers pass the length
of the text plus one, which always suffices. -/
def scanTags : Nat → List Char → List (List Char × List Char)
  | 0, _ => []
  | _ + 1, [] => []
  | fuel + 1, c :: rest =>
    if c = '<' then
      match findTagMatch rest with
      | some (name, content, rest') => (name, content) :: scanTags fuel rest'
      | none => scanTags fuel rest
    else scanTags fuel rest

/-- Python str.strip removes these characters from both ends. -/
def pyIsSpace (c : Char) : Bool :=
  c = ' ' || c = '\t' || c = '\n' || c = '\r' || c = Char.ofNat 11 || c = Char.ofNat 12

/-- Python str.strip on a character list. -/
def stripChars (s : List Char) : List Char :=
  ((s.dropWhile pyIsSpace).reverse.dropWhile pyIsSpace).reverse

/-- Insert a key/value pair into an association list with the overwrite
semantics of a Python dict assignment: an existing binding of the key is
replaced in place, otherwise the pair is appended. -/
def dictInsert {α : Type} (k : String) (v : α) : List (String × α) → List (String × α)
  | [] => [(k, v)]
  | (k', v') :: rest => if k' = k then (k, v) :: rest else (k', v') :: dictInsert k v rest

/-- Python dict lookup on the association-list model of a dict. -/
def dictGet {α : Type} : List (String × α) → String → Option α
  | [], _ => none
  | (k', v) :: rest, k => if k' = k then some v else dictGet rest k

/-- parse_tags from src/utils/parse_tags.py: the mapping from tag name to
stripped content over all matches, later matches overwriting earlier ones
with the same name. -/
def parse_tags (s : String) : List (String × String) :=
  (scanTags (s.data.length + 1) s.data).foldl
    (fun d pr => dictInsert (String.mk pr.1) (String.mk (stripChars pr.2)) d) []

/-! ### Answer scoring, from src/green_agent/agent.py -/

/-- normalize_answer: strip whitespace and lowercase. -/
def normalize_answer (s : String) : String :=
  String.mk ((stripChars s.data).map Char.toLower)

/-- The value of a digit list read in base 10. -/
def digitsToNat (ds : List Char) : Nat :=
  ds.foldl (fun n c => n * 10 + (c.toNat - 48)) 0

/-- The exponent suffix of a float literal: empty, or e/E followed by an
optional sign and at least one digit, consuming the whole rest. -/
def parseExponentSuffix : List Char → Option Int
  | [] => some 0
  | c :: r =>
    if c = 'e' || c = 'E' then
      let signed : Int × List Char :=
        match r with
        | '+' :: t => (1, t)
        | '-' :: t => (-1, t)
        | t => (1, t)
      let ds := signed.2.takeWhile Char.isDigit
      let r2 := signed.2.dropWhile Char.isDigit
      if ds.isEmpty || !r2.isEmpty then none else some (signed.1 * digitsToNat ds)
    else none

/-- The decimal-number fragment of the grammar accepted by the Python
float constructor: an optional sign, digits with an optional fractional
part (at least one digit overall), and an optional exponent.  The value is
the exact rational denoted by the literal. -/
def parsePyFloat (s : List Char) : Option ℚ :=
  let signed : ℚ × List Char :=
    match s with
    | '+' :: t => (1, t)
    | '-' :: t => (-1, t)
    | t => (1, t)
  let ip := signed.2.takeWhile Char.isDigit
  let s2 := signed.2.dropWhile Char.isDigit
  let fracAndRest : Option (List Char × List Char) :=
    match s2 with
    | '.' :: t => some (t.takeWhile Char.isDigit, t.dropWhile Char.isDigit)
    | t => some ([], t)
  match fracAndRest with
  | none => none
  | some (fp, s3) =>
    if ip.isEmpty && fp.isEmpty then none
    else
      match parseExponentSuffix s3 with
      | none => none
      | some e =>
        let mantissa : ℚ :=
          (digitsToNat ip : ℚ) + (digitsToNat fp : ℚ) / ((10 : ℚ) ^ fp.length)
        some (signed.1 * mantissa * (10 : ℚ) ^ e)

/-- check_answer_correctness: exact match after normalization, else a
numeric comparison within tolerance when both sides parse as numbers, else
false.  The numeric parse failure branch of the Python try/except is the
none case of parsePyFloat; the function is total, no exception escapes. -/
def check_answer_correctness (predicted ground_truth : String) (tolerance : ℚ) : Bool :=
  let pred_norm := normalize_answer predicted
  let gt_norm := normalize_answer ground_truth
  if pred_norm = gt_norm then true
  else
    match parsePyFloat pred_norm.data, parsePyFloat gt_norm.data with
    | some p, some g => decide (|p - g| ≤ tolerance)
    | _, _ => false

/-! ### The task runner and evaluation run, from src/green_agent/agent.py

The transport call self._tool_provider.talk_to_agent is an oracle
`talk : String → Except String String`: the ok branch is the executor
response text, the error branch a transport or protocol exception.
Elapsed wall-clock time is an oracle value as well.
-/

/-- A loaded GAIA task.  task_id mirrors task.get("task_id", "unknown")
on a possibly missing key; final_answer mirrors task.get("Final answer"),
which may be missing (none) or any string, including the empty one. -/
structure GaiaTask where
  task_id : Option String
  question : String
  final_answer : Option String
deriving DecidableEq

/-- The per-task result dict.  Fields that a branch of the Python code
leaves out of its dict are none. -/
structure TaskResult where
  task_id : String
  question : Option String
  predicted_answer : Option String
  ground_truth : Option String
  is_correct : Option Bool
  elapsed_time : Option ℚ
  full_response : Option String
  error : Option String

/-- task.get("task_id", "unknown"). -/
def taskIdOf (t : GaiaTask) : String := t.task_id.getD "unknown"

/-- The literal task prompt built by _run_single_task. -/
def buildTaskPrompt (question : String) : String :=
  "You are solving a GAIA benchmark task. Provide your final answer clearly.\n\nQuestion: "
    ++ question
    ++ "\n\nUse the available tools (web_search, python_calculator) as needed to solve this task.\nOnce you have the answer, provide it in this format:\n<answer>YOUR_ANSWER_HERE</answer>"

/-- GAIAEvaluator._run_single_task.  The try block around the transport
call catches every exception and turns it into the error-shaped result, so
the function is total: no fault propagates to the caller.  In the ok
branch the answer tag is extracted with parse_tags, falling back to the
raw response, and is_correct is only computed when the ground truth is
truthy (present and non-empty). -/
def runSingleTask (talk : String → Except String String) (task : GaiaTask) (elapsed : ℚ) :
    TaskResult :=
  let question := task.question
  let ground_truth := task.final_answer
  let task_id := taskIdOf task
  match talk (buildTaskPrompt question) with
  | Except.ok response =>
    let tags := parse_tags response
    let predicted_answer := ((dictGet tags "answer").getD response)
    let is_correct : Option Bool :=
      match ground_truth with
      | none => none
      | some gt =>
        if gt = "" then none
        else some (check_answer_correctness predicted_answer gt (1 / 100))
    { task_id := task_id, question := some question,
      predicted_answer := some predicted_answer, ground_truth := ground_truth,
      is_correct := is_correct, elapsed_time := some elapsed,
      full_response := some response, error := none }
  | Except.error e =>
    { task_id := task_id, question := some question, predicted_answer := none,
      ground_truth := none, is_correct := some false,
      elapsed_time := some elapsed, full_response := none, error := some e }

/-- The error entry run_eval records when evaluating a task raises. -/
def errorEntry (task : GaiaTask) (e : String) : TaskResult :=
  { task_id := taskIdOf task, question := none, predicted_answer := none,
    ground_truth := none, is_correct := some false, elapsed_time := none,
    full_response := none, error := some e }

/-- The per-task loop of GAIAEvaluator.run_eval: each task is evaluated in
turn and its result stored into the metrics dict under the task id; an
exception from the evaluation of one task is caught and stored as an
error entry, and the loop continues with the next task. -/
def runEvalStep (evalTask : GaiaTask → Except String TaskResult)
    (metrics : List (String × TaskResult)) (task : GaiaTask) :
    List (String × TaskResult) :=
  match evalTask task with
  | Except.ok r => dictInsert (taskIdOf task) r metrics
  | Except.error e => dictInsert (taskIdOf task) (errorEntry task e) metrics

def runEvalTasks (evalTask : GaiaTask → Except String TaskResult) (tasks : List GaiaTask) :
    List (String × TaskResult) :=
  tasks.foldl (runEvalStep evalTask) []

/-- The structured result payload run_eval emits. -/
structure RunSummary where
  level : Nat
  split : String
  score : Nat
  max_score : Nat
  accuracy : ℚ
  errors : Nat
  task_results : List (String × TaskResult)
  time_used : ℚ
  avg_time : ℚ

/-- The final-metrics computation of run_eval: counts over the collected
task results, accuracy as a percentage guarded against an empty run, and
the average time under the same guard. -/
def computeSummary (level : Nat) (split : String)
    (taskResults : List (String × TaskResult)) (time_used : ℚ) : RunSummary :=
  let total_tasks := taskResults.length
  let correct_tasks := (taskResults.filter (fun kv => kv.2.is_correct = some true)).length
  let error_tasks := (taskResults.filter (fun kv => kv.2.error.isSome)).length
  let accuracy : ℚ :=
    if 0 < total_tasks then (correct_tasks : ℚ) / (total_tasks : ℚ) * 100 else 0
  let avg_time : ℚ := if 0 < total_tasks then time_used / (total_tasks : ℚ) else 0
  { level := level, split := split, score := correct_tasks, max_score := total_tasks,
    accuracy := accuracy, errors := error_tasks, task_results := taskResults,
    time_used := time_used, avg_time := avg_time }

/-- GAIAEvaluator.run_eval over an already loaded task batch: run every
task, then aggregate. -/
def run_eval (level : Nat) (split : String)
    (evalTask : GaiaTask → Except String TaskResult) (tasks : List GaiaTask)
    (time_used : ℚ) : RunSummary :=
  computeSummary level split (runEvalTasks evalTask tasks) time_used

/-- The evaluation function run_eval actually uses for one task: code of
the loop body before the try block may raise (the outer oracle), otherwise
_run_single_task runs with the transport and timing oracles and never
raises. -/
def evalTaskOf (outer : GaiaTask → Except String Unit)
    (talk : GaiaTask → String → Except String String) (elapsed : GaiaTask → ℚ) :
    GaiaTask → Except String TaskResult :=
  fun t =>
    match outer t with
    | Except.error e => Except.error e
    | Except.ok _ => Except.ok (runSingleTask (talk t) t (elapsed t))

/-! ### Tool implementations and dispatch, from src/purple_agent/tools.py
and src/purple_agent/agent.py

The search backend and the restricted expression evaluator are oracles;
their error branch is an exception raised inside the tool body, which the
tool catches itself.  Argument values carried in the parsed JSON argument
object are modelled by JValue.  execute_tool_call returns in the error
branch exactly when the Python call would raise past the dispatch
boundary, which happens when the keyword-argument mapping does not bind
the parameters of the called tool.
-/

/-- A JSON argument value. -/
inductive JValue
  | str (s : String)
  | num (n : Int)
deriving DecidableEq

/-- One search result row: title, url, snippet. -/
structure SearchRow where
  title : String
  url : String
  snippet : String

/-- Naive rendering of one row for the results payload. -/
def renderRow (r : SearchRow) : String :=
  "\x7b\"title\": \"" ++ r.title ++ "\", \"url\": \"" ++ r.url
    ++ "\", \"snippet\": \"" ++ r.snippet ++ "\"\x7d"

/-- Naive rendering of the rows list for the results payload. -/
def renderRows : List SearchRow → String
  | [] => ""
  | [r] => renderRow r
  | r :: rest => renderRow r ++ ", " ++ renderRows rest

/-- web_search from src/purple_agent/tools.py: the whole body is wrapped
in try/except, a fault from the search backend becomes the error payload
string instead of propagating. -/
def web_search (ddgs : JValue → JValue → Except String (List SearchRow))
    (query max_results : JValue) : String :=
  match ddgs query max_results with
  | Except.ok rows => "\x7b\"results\": [" ++ renderRows rows ++ "]\x7d"
  | Except.error e => "\x7b\"error\": \"Search failed: " ++ e ++ "\"\x7d"

/-- Rendering of the calculator result value. -/
def renderJValue : JValue → String
  | JValue.str s => "\"" ++ s ++ "\""
  | JValue.num n => toString n

/-- python_calculator from src/purple_agent/tools.py: the whole body is
wrapped in try/except, a fault from the restricted evaluation becomes the
error payload string instead of propagating. -/
def python_calculator (evalExpr : JValue → Except String JValue)
    (expression : JValue) : String :=
  match evalExpr expression with
  | Except.ok v => "\x7b\"result\": " ++ renderJValue v ++ "\x7d"
  | Except.error e => "\x7b\"error\": \"Calculation failed: " ++ e ++ "\"\x7d"

/-- Keyword binding of the argument mapping against
web_search(query, max_results=5): every key must name a parameter and the
parameter without a default must be bound, else the call raises TypeError
before the tool body runs. -/
def bindWebSearchArgs (args : List (String × JValue)) : Except String (JValue × JValue) :=
  if args.any (fun kv => kv.1 ≠ "query" && kv.1 ≠ "max_results") then
    Except.error "TypeError: web_search() got an unexpected keyword argument"
  else
    match args.lookup "query" with
    | some q => Except.ok (q, (args.lookup "max_results").getD (JValue.num 5))
    | none => Except.error "TypeError: web_search() missing required argument: query"

/-- Keyword binding of the argument mapping against
python_calculator(expression). -/
def bindCalculatorArgs (args : List (String × JValue)) : Except String JValue :=
  if args.any (fun kv => kv.1 ≠ "expression") then
    Except.error "TypeError: python_calculator() got an unexpected keyword argument"
  else
    match args.lookup "expression" with
    | some ex => Except.ok ex
    | none => Except.error "TypeError: python_calculator() missing required argument: expression"

/-- execute_tool_call from src/purple_agent/agent.py: dispatch on the tool
name; an unknown name yields the textual error result.  The ok branch is
the returned string, the error branch a raised exception. -/
def execute_tool_call (ddgs : JValue → JValue → Except String (List SearchRow))
    (evalExpr : JValue → Except String JValue)
    (tool_name : String) (tool_args : List (String × JValue)) : Except String String :=
  if tool_name = "web_search" then
    match bindWebSearchArgs tool_args with
    | Except.ok qm => Except.ok (web_search ddgs qm.1 qm.2)
    | Except.error e => Except.error e
  else if tool_name = "python_calculator" then
    match bindCalculatorArgs tool_args with
    | Except.ok ex => Except.ok (python_calculator evalExpr ex)
    | Except.error e => Except.error e
  else Except.ok ("Error: Unknown tool \x27" ++ tool_name ++ "\x27")

/-! ### The tool-calling loop, from PurpleAgentExecutor.execute

The LLM completion call is an oracle from the conversation so far to one
assistant turn; tool execution inside the loop is an oracle from a tool
call to its textual result.  Events enqueued on the event queue are
collected into a list in order.
-/

/-- One requested tool call of an assistant turn. -/
structure ToolCall where
  id : String
  name : String
  arguments : String
deriving DecidableEq

/-- One assistant turn: content may be None, tool_calls empty models a
falsy (absent or empty) tool_calls attribute. -/
structure AssistantMsg where
  content : Option String
  tool_calls : List ToolCall
deriving DecidableEq

/-- A conversation turn entry. -/
inductive Message
  | user (content : String)
  | assistant (msg : AssistantMsg)
  | tool (tool_call_id : String) (name : String) (content : String)
deriving DecidableEq

/-- The tool-result turns appended for the tool calls of one assistant
turn, in order. -/
def toolResultMsgs (execTool : ToolCall → String) (tcs : List ToolCall) : List Message :=
  tcs.map (fun tc => Message.tool tc.id tc.name (execTool tc))

/-- The fixed iteration ceiling of the loop. -/
def max_iterations : Nat := 10

/-- The fixed sentinel text enqueued on ceiling exhaustion. -/
def maxIterSentinel : String := "Maximum iterations reached. Unable to complete task."

/-- The while loop of PurpleAgentExecutor.execute.  The fuel is the number
of loop iterations still allowed, so the loop is entered exactly while
iteration < max_iterations; the returned triple is the final value of the
iteration counter, the message list and the enqueued events. -/
def toolLoop (model : List Message → AssistantMsg) (execTool : ToolCall → String) :
    Nat → Nat → List Message → List String → Nat × List Message × List String
  | 0, iteration, messages, events => (iteration, messages, events)
  | fuel + 1, iteration, messages, events =>
    let iteration' := iteration + 1
    let am := model messages
    let messages' := messages ++ [Message.assistant am]
    if am.tool_calls.isEmpty then
      (iteration', messages', events ++ [am.content.getD ""])
    else
      toolLoop model execTool fuel iteration'
        (messages' ++ toolResultMsgs execTool am.tool_calls) events

/-- The body of PurpleAgentExecutor.execute after the history lookup: the
user turn is appended, the loop runs with the ceiling, and after the loop
the sentinel is enqueued whenever the final iteration counter reached the
ceiling.  Returns the final message list of the conversation and the
enqueued events in order. -/
def executeLoop (model : List Message → AssistantMsg) (execTool : ToolCall → String)
    (history : List Message) (userInput : String) : List Message × List String :=
  let messages := history ++ [Message.user userInput]
  let out := toolLoop model execTool max_iterations 0 messages []
  (out.2.1, if max_iterations ≤ out.1 then out.2.2 ++ [maxIterSentinel] else out.2.2)

/-- PurpleAgentExecutor.execute acting on the per-conversation history
store ctx_id_to_messages, modelled as a total map with the empty history
as the default a fresh key is initialised to.  Returns the updated store
and the enqueued events. -/
def executeHandler (model : List Message → AssistantMsg) (execTool : ToolCall → String)
    (store : String → List Message) (ctx_id : String) (userInput : String) :
    (String → List Message) × List String :=
  let out := executeLoop model execTool (store ctx_id) userInput
  (fun c => if c = ctx_id then out.1 else store c, out.2)


/-! ### Helper lemmas -/

theorem dictInsert_cons_eq {α : Type} (k : String) (v v' : α) (rest : List (String × α)) :
    dictInsert k v ((k, v') :: rest) = (k, v) :: rest := by
  simp [dictInsert]

theorem dictInsert_cons_ne {α : Type} (k k' : String) (v v' : α) (rest : List (String × α))
    (h : k' ≠ k) : dictInsert k v ((k', v') :: rest) = (k', v') :: dictInsert k v rest := by
  simp [dictInsert, h]

theorem dictGet_cons_eq {α : Type} (k : String) (v : α) (rest : List (String × α)) :
    dictGet ((k, v) :: rest) k = some v := by
  simp [dictGet]

theorem dictGet_cons_ne {α : Type} (k k' : String) (v : α) (rest : List (String × α))
    (h : k' ≠ k) : dictGet ((k', v) :: rest) k = dictGet rest k := by
  simp [dictGet, h]

/-- Looking up the key just inserted returns the new value. -/
theorem dictGet_dictInsert_self {α : Type} (k : String) (v : α) (l : List (String × α)) :
    dictGet (dictInsert k v l) k = some v := by
  induction l with
  | nil => simp [dictInsert, dictGet]
  | cons p rest ih =>
    obtain ⟨k', v'⟩ := p
    by_cases h : k' = k
    · subst h
      rw [dictInsert_cons_eq, dictGet_cons_eq]
    · rw [dictInsert_cons_ne k k' v v' rest h, dictGet_cons_ne k k' v' _ h, ih]

/-- The keys after an insertion are the inserted key and the old keys. -/
theorem mem_keys_dictInsert {α : Type} (k a : String) (v : α) (l : List (String × α)) :
    a ∈ (dictInsert k v l).map Prod.fst ↔ a = k ∨ a ∈ l.map Prod.fst := by
  induction l with
  | nil => simp [dictInsert]
  | cons p rest ih =>
    obtain ⟨k', v'⟩ := p
    by_cases h : k' = k
    · subst h
      rw [dictInsert_cons_eq]
      simp only [List.map_cons, List.mem_cons]
      tauto
    · rw [dictInsert_cons_ne k k' v v' rest h]
      simp only [List.map_cons, List.mem_cons, ih]
      tauto

/-- Insertion with the overwrite semantics keeps the keys duplicate-free. -/
theorem nodup_keys_dictInsert {α : Type} (k : String) (v : α) (l : List (String × α))
    (h : (l.map Prod.fst).Nodup) : ((dictInsert k v l).map Prod.fst).Nodup := by
  induction l with
  | nil => simp [dictInsert]
  | cons p rest ih =>
    obtain ⟨k', v'⟩ := p
    simp only [List.map_cons, List.nodup_cons] at h
    by_cases hk : k' = k
    · subst hk
      rw [dictInsert_cons_eq]
      simp only [List.map_cons, List.nodup_cons]
      exact h
    · rw [dictInsert_cons_ne k k' v v' rest hk]
      simp only [List.map_cons, List.nodup_cons]
      refine ⟨fun hmem => ?_, ih h.2⟩
      rcases (mem_keys_dictInsert k k' v rest).mp hmem with h1 | h1
      · exact hk h1
      · exact h.1 h1

/-- A pair of an insertion result is the inserted pair or an old pair. -/
theorem mem_dictInsert {α : Type} (k a : String) (v b : α) (l : List (String × α))
    (h : (a, b) ∈ dictInsert k v l) : (a = k ∧ b = v) ∨ (a, b) ∈ l := by
  induction l with
  | nil =>
    simp only [dictInsert, List.mem_singleton, Prod.mk.injEq] at h
    exact Or.inl h
  | cons p rest ih =>
    obtain ⟨k', v'⟩ := p
    by_cases hk : k' = k
    · subst hk
      rw [dictInsert_cons_eq] at h
      rcases List.mem_cons.mp h with h1 | h1
      · exact Or.inl (by simpa [Prod.mk.injEq] using h1)
      · exact Or.inr (List.mem_cons_of_mem _ h1)
    · rw [dictInsert_cons_ne k k' v v' rest hk] at h
      rcases List.mem_cons.mp h with h1 | h1
      · exact Or.inr (by rw [h1]; exact List.mem_cons_self _ _)
      · rcases ih h1 with h2 | h2
        · exact Or.inl h2
        · exact Or.inr (List.mem_cons_of_mem _ h2)

/-- A key among the keys of an association list looks up successfully. -/
theorem dictGet_isSome_of_mem_keys {α : Type} (l : List (String × α)) (k : String)
    (h : k ∈ l.map Prod.fst) : ∃ r, dictGet l k = some r := by
  induction l with
  | nil => simp at h
  | cons p rest ih =>
    obtain ⟨k', v'⟩ := p
    by_cases hk : k' = k
    · subst hk
      exact ⟨v', dictGet_cons_eq _ _ _⟩
    · simp only [List.map_cons, List.mem_cons] at h
      rcases h with h | h
      · exact absurd h.symm hk
      · obtain ⟨r, hr⟩ := ih h
        exact ⟨r, by rw [dictGet_cons_ne k k' v' rest hk, hr]⟩

/-- A successful lookup returns a pair of the list. -/
theorem dictGet_mem {α : Type} (l : List (String × α)) (k : String) (r : α)
    (h : dictGet l k = some r) : (k, r) ∈ l := by
  induction l with
  | nil => simp [dictGet] at h
  | cons p rest ih =>
    obtain ⟨k', v'⟩ := p
    by_cases hk : k' = k
    · subst hk
      rw [dictGet_cons_eq] at h
      rw [Option.some.injEq] at h
      rw [← h]
      exact List.mem_cons_self _ _
    · rw [dictGet_cons_ne k k' v' rest hk] at h
      exact List.mem_cons_of_mem _ (ih h)

/-- Both result shapes produced by _run_single_task carry the task's own
id. -/
theorem runSingleTask_task_id (talk : String → Except String String) (task : GaiaTask)
    (elapsed : ℚ) : (runSingleTask talk task elapsed).task_id = taskIdOf task := by
  cases h : talk (buildTaskPrompt task.question) <;> simp [runSingleTask, h]

/-- The evaluation function used by run_eval keys every successful result
with the task's own id. -/
theorem evalTaskOf_task_id (outer : GaiaTask → Except String Unit)
    (talk : GaiaTask → String → Except String String) (elapsed : GaiaTask → ℚ)
    (t : GaiaTask) (r : TaskResult) (h : evalTaskOf outer talk elapsed t = Except.ok r) :
    r.task_id = taskIdOf t := by
  unfold evalTaskOf at h
  cases ho : outer t with
  | ok u =>
    rw [ho] at h
    rw [Except.ok.injEq] at h
    rw [← h]
    exact runSingleTask_task_id _ _ _
  | error e =>
    rw [ho] at h
    exact absurd h (by simp)

/-- One step of the evaluation loop preserves the invariant that every
stored entry carries the id it is keyed under. -/
theorem runEvalStep_inv (evalTask : GaiaTask → Except String TaskResult)
    (hId : ∀ t r, evalTask t = Except.ok r → r.task_id = taskIdOf t)
    (acc : List (String × TaskResult)) (task : GaiaTask)
    (hacc : ∀ p ∈ acc, p.2.task_id = p.1) :
    ∀ p ∈ runEvalStep evalTask acc task, p.2.task_id = p.1 := by
  intro p hp
  obtain ⟨a, b⟩ := p
  unfold runEvalStep at hp
  cases h : evalTask task with
  | ok r =>
    rw [h] at hp
    rcases mem_dictInsert _ _ _ _ _ hp with h1 | h1
    · rw [h1.1, h1.2]
      exact hId task r h
    · exact hacc _ h1
  | error e =>
    rw [h] at hp
    rcases mem_dictInsert _ _ _ _ _ hp with h1 | h1
    · rw [h1.1, h1.2]
      rfl
    · exact hacc _ h1

/-- One step of the evaluation loop keeps the keys duplicate-free. -/
theorem runEvalStep_nodup (evalTask : GaiaTask → Except String TaskResult)
    (acc : List (String × TaskResult)) (task : GaiaTask)
    (hacc : (acc.map Prod.fst).Nodup) :
    ((runEvalStep evalTask acc task).map Prod.fst).Nodup := by
  unfold runEvalStep
  cases evalTask task <;> exact nodup_keys_dictInsert _ _ _ hacc

/-- One step of the evaluation loop keeps every existing key. -/
theorem runEvalStep_keys_mono (evalTask : GaiaTask → Except String TaskResult)
    (acc : List (String × TaskResult)) (task : GaiaTask) (k : String)
    (hk : k ∈ acc.map Prod.fst) :
    k ∈ (runEvalStep evalTask acc task).map Prod.fst := by
  unfold runEvalStep
  cases evalTask task <;> exact (mem_keys_dictInsert _ _ _ _).mpr (Or.inr hk)

/-- One step of the evaluation loop adds the key of the processed task. -/
theorem runEvalStep_keys_self (evalTask : GaiaTask → Except String TaskResult)
    (acc : List (String × TaskResult)) (task : GaiaTask) :
    taskIdOf task ∈ (runEvalStep evalTask acc task).map Prod.fst := by
  unfold runEvalStep
  cases evalTask task <;> exact (mem_keys_dictInsert _ _ _ _).mpr (Or.inl rfl)

/-- The whole evaluation loop preserves the key/id invariant. -/
theorem runEvalFold_inv (evalTask : GaiaTask → Except String TaskResult)
    (hId : ∀ t r, evalTask t = Except.ok r → r.task_id = taskIdOf t) :
    ∀ (tasks : List GaiaTask) (acc : List (String × TaskResult)),
      (∀ p ∈ acc, p.2.task_id = p.1) →
      ∀ p ∈ tasks.foldl (runEvalStep evalTask) acc, p.2.task_id = p.1 := by
  intro tasks
  induction tasks with
  | nil => intro acc hacc; simpa using hacc
  | cons t rest ih =>
    intro acc hacc
    simp only [List.foldl_cons]
    exact ih _ (runEvalStep_inv evalTask hId acc t hacc)

/-- The whole evaluation loop keeps the keys duplicate-free. -/
theorem runEvalFold_nodup (evalTask : GaiaTask → Except String TaskResult) :
    ∀ (tasks : List GaiaTask) (acc : List (String × TaskResult)),
      (acc.map Prod.fst).Nodup →
      ((tasks.foldl (runEvalStep evalTask) acc).map Prod.fst).Nodup := by
  intro tasks
  induction tasks with
  | nil => intro acc hacc; simpa using hacc
  | cons t rest ih =>
    intro acc hacc
    simp only [List.foldl_cons]
    exact ih _ (runEvalStep_nodup evalTask acc t hacc)

/-- The whole evaluation loop keeps every existing key. -/
theorem runEvalFold_keys_mono (evalTask : GaiaTask → Except String TaskResult) :
    ∀ (tasks : List GaiaTask) (acc : List (String × TaskResult)) (k : String),
      k ∈ acc.map Prod.fst →
      k ∈ (tasks.foldl (runEvalStep evalTask) acc).map Prod.fst := by
  intro tasks
  induction tasks with
  | nil => intro acc k hk; simpa using hk
  | cons t rest ih =>
    intro acc k hk
    simp only [List.foldl_cons]
    exact ih _ _ (runEvalStep_keys_mono evalTask acc t k hk)

/-- Every processed task contributes its key to the final mapping. -/
theorem runEvalFold_mem_keys (evalTask : GaiaTask → Except String TaskResult) :
    ∀ (tasks : List GaiaTask) (acc : List (String × TaskResult)) (t : GaiaTask),
      t ∈ tasks →
      taskIdOf t ∈ (tasks.foldl (runEvalStep evalTask) acc).map Prod.fst := by
  intro tasks
  induction tasks with
  | nil => intro acc t ht; simp at ht
  | cons t' rest ih =>
    intro acc t ht
    simp only [List.foldl_cons]
    rcases List.mem_cons.mp ht with h | h
    · subst h
      exact runEvalFold_keys_mono evalTask rest _ _ (runEvalStep_keys_self evalTask acc t)
    · exact ih _ t h

/-- The task_results field of the emitted summary is exactly the mapping
the evaluation loop built. -/
theorem run_eval_task_results (level : Nat) (split : String)
    (evalTask : GaiaTask → Except String TaskResult) (tasks : List GaiaTask)
    (time_used : ℚ) :
    (run_eval level split evalTask tasks time_used).task_results
      = runEvalTasks evalTask tasks := rfl

/-- The tool-calling loop only appends to the conversation: the messages
it starts from are an initial segment of the messages it ends with. -/
theorem toolLoop_extends (model : List Message → AssistantMsg)
    (execTool : ToolCall → String) :
    ∀ (fuel iteration : Nat) (messages : List Message) (events : List String),
      messages <+: (toolLoop model execTool fuel iteration messages events).2.1 := by
  intro fuel
  induction fuel with
  | zero => intro iteration messages events; exact List.prefix_rfl
  | succ n ih =>
    intro iteration messages events
    simp only [toolLoop]
    by_cases h : (model messages).tool_calls.isEmpty
    · simp only [h, if_true]
      exact List.prefix_append _ _
    · simp only [h, if_false]
      exact ((List.prefix_append _ _).trans (List.prefix_append _ _)).trans (ih _ _ _)

/-- A text without the character < has no tag matches. -/
theorem scanTags_no_lt :
    ∀ (fuel : Nat) (s : List Char), (∀ c ∈ s, c ≠ '<') → scanTags fuel s = [] := by
  intro fuel
  induction fuel with
  | zero => intro s h; rfl
  | succ n ih =>
    intro s h
    cases s with
    | nil => rfl
    | cons c rest =>
      have hc : c ≠ '<' := h c (List.mem_cons_self _ _)
      simp only [scanTags, if_neg hc]
      exact ih rest (fun c' hc' => h c' (List.mem_cons_of_mem _ hc'))

/-! ### Claim theorems -/

/-- C7: for every input string the tag extractor returns a mapping from
tag name to trimmed inner content for every occurrence of the pattern
<name>...</name>, a repeated tag name keeping the last occurrence; input
with no tags yields the empty mapping and raises no error (the function is
total by construction); "<a>1</a><b>2</b>" yields the mapping a to "1" and
b to "2". -/
theorem C7_parse_tags_contract :
    (∀ s : String, (∀ c ∈ s.data, c ≠ '<') → parse_tags s = [])
    ∧ parse_tags "<a>1</a><b>2</b>" = [("a", "1"), ("b", "2")]
    ∧ parse_tags "<a>1</a><a>2</a>" = [("a", "2")]
    ∧ parse_tags "<a>  1  </a>" = [("a", "1")] := by
  refine ⟨?_, by decide, by decide, by decide⟩
  intro s h
  unfold parse_tags
  rw [scanTags_no_lt _ _ h]
  rfl

/-- Witness for C7 at a tag-free input. -/
theorem C7_parse_tags_contract_witness : parse_tags "just text, no tags at all" = [] :=
  C7_parse_tags_contract.1 "just text, no tags at all" (by decide)

/-- C5: the answer scorer returns true when the two strings agree after
trimming and lowercasing; otherwise its result is exactly the numeric
comparison: both normalized strings must parse as decimal numbers and
differ by at most the tolerance, any parse failure giving false.  The
scorer is a total function, so no exception escapes it. -/
theorem C5_scorer_contract :
    ∀ predicted ground_truth : String,
      (normalize_answer predicted = normalize_answer ground_truth →
        check_answer_correctness predicted ground_truth (1 / 100) = true)
      ∧ (normalize_answer predicted ≠ normalize_answer ground_truth →
          check_answer_correctness predicted ground_truth (1 / 100)
            = match parsePyFloat (normalize_answer predicted).data,
                    parsePyFloat (normalize_answer ground_truth).data with
              | some p, some g => decide (|p - g| ≤ (1 / 100 : ℚ))
              | _, _ => false) := by
  intro predicted ground_truth
  constructor
  · intro h
    unfold check_answer_correctness
    rw [if_pos h]
  · intro h
    unfold check_answer_correctness
    rw [if_neg h]

/-- Witness for C5: an exact match modulo trimming and case, and a pair
where both numeric parses fail. -/
theorem C5_scorer_contract_witness :
    normalize_answer "  Paris " = normalize_answer "paris"
    ∧ check_answer_correctness "  Paris " "paris" (1 / 100) = true
    ∧ check_answer_correctness "apple" "pear" (1 / 100) = false :=
  ⟨by decide, (C5_scorer_contract "  Paris " "paris").1 (by decide),
    (C5_scorer_contract "apple" "pear").2 (by decide)⟩

/-- A scripted tool call used by the scripted models below. -/
def scriptedToolCall : ToolCall :=
  { id := "call-1", name := "web_search", arguments := "\x7b\x7d" }

/-- A scripted model that never requests tools. -/
def neverToolsModel : List Message → AssistantMsg :=
  fun _ => { content := some "direct answer", tool_calls := [] }

/-- A scripted model that requests a tool on every call. -/
def alwaysToolsModel : List Message → AssistantMsg :=
  fun _ => { content := some "partial progress", tool_calls := [scriptedToolCall] }

/-- The number of assistant turns in a conversation. -/
def countAssistants (msgs : List Message) : Nat :=
  (msgs.filter (fun m => match m with
    | Message.assistant _ => true
    | _ => false)).length

/-- A scripted model that requests a tool on each of its first nine calls
and answers without tool calls on its tenth call, so that the loop breaks
on the final allowed iteration. -/
def answersAtCeilingModel : List Message → AssistantMsg :=
  fun msgs =>
    if countAssistants msgs < 9 then
      { content := none, tool_calls := [scriptedToolCall] }
    else
      { content := some "the real answer", tool_calls := [] }

/-- C1: evaluation of the executor's tool-calling loop on scripted models.
A model that never requests tools terminates in one cycle with its content
as the only emitted message, and a model that always requests tools
terminates at the ceiling of 10 with the fixed sentinel as the only
emitted message; but the two terminal messages are not mutually exclusive:
a model that requests tools on the first nine iterations and produces its
final answer on the tenth makes the loop emit both the final answer and
the exhaustion sentinel, because the post-loop check iteration >=
max_iterations also holds when the loop broke on its last allowed
iteration. -/
theorem C1_loop_termination_eval :
    (executeLoop neverToolsModel (fun _ => "tool result") [] "question").2
      = ["direct answer"]
    ∧ (executeLoop alwaysToolsModel (fun _ => "tool result") [] "question").2
      = [maxIterSentinel]
    ∧ (executeLoop answersAtCeilingModel (fun _ => "tool result") [] "question").2
      = ["the real answer", maxIterSentinel] := by
  refine ⟨by decide, by decide, by decide⟩

/-- C9: one request of the executor only rewrites the history bucket of
its own conversation identifier: every other bucket is unchanged, and the
bucket of the request's own identifier only grows, the old history being
an initial segment of the new one. -/
theorem C9_history_isolation :
    ∀ (model : List Message → AssistantMsg) (execTool : ToolCall → String)
      (store : String → List Message) (ctx_id userInput : String),
      (∀ c, c ≠ ctx_id →
        (executeHandler model execTool store ctx_id userInput).1 c = store c)
      ∧ store ctx_id <+: (executeHandler model execTool store ctx_id userInput).1 ctx_id := by
  intro model execTool store ctx_id userInput
  constructor
  · intro c hc
    simp only [executeHandler]
    rw [if_neg hc]
  · simp only [executeHandler, if_true]
    simp only [executeLoop]
    exact (List.prefix_append _ _).trans (toolLoop_extends model execTool _ _ _ _)

/-- Witness for C9 at a concrete model, store and pair of conversation
identifiers. -/
theorem C9_history_isolation_witness :
    (executeHandler neverToolsModel (fun _ => "tool result") (fun _ => []) "conv-a" "hi").1 "conv-b" = []
    ∧ ([] : List Message) <+:
        (executeHandler neverToolsModel (fun _ => "tool result") (fun _ => []) "conv-a" "hi").1 "conv-a" :=
  ⟨(C9_history_isolation neverToolsModel (fun _ => "tool result") (fun _ => []) "conv-a" "hi").1
      "conv-b" (by decide),
    (C9_history_isolation neverToolsModel (fun _ => "tool result") (fun _ => []) "conv-a" "hi").2⟩

/-- C3: in every run, every task of the loaded batch is recorded in the
task_results mapping under its own task id, with the stored entry carrying
that id, and the mapping binds each key exactly once; tasks whose
evaluation raised are recorded through the error entry rather than
omitted, since the theorem quantifies over an arbitrary fallible
evaluation oracle. -/
theorem C3_every_task_recorded :
    ∀ (outer : GaiaTask → Except String Unit)
      (talk : GaiaTask → String → Except String String) (elapsed : GaiaTask → ℚ)
      (level : Nat) (split : String) (tasks : List GaiaTask) (T : ℚ),
      ((run_eval level split (evalTaskOf outer talk elapsed) tasks T).task_results.map
          Prod.fst).Nodup
      ∧ ∀ t ∈ tasks, ∃ r,
          dictGet
              (run_eval level split (evalTaskOf outer talk elapsed) tasks T).task_results
              (taskIdOf t)
            = some r
          ∧ r.task_id = taskIdOf t := by
  intro outer talk elapsed level split tasks T
  simp only [run_eval_task_results]
  unfold runEvalTasks
  constructor
  · exact runEvalFold_nodup _ tasks [] (by simp)
  · intro t ht
    obtain ⟨r, hr⟩ :=
      dictGet_isSome_of_mem_keys _ _ (runEvalFold_mem_keys _ tasks [] t ht)
    refine ⟨r, hr, ?_⟩
    exact runEvalFold_inv _ (fun u s hs => evalTaskOf_task_id outer talk elapsed u s hs)
      tasks [] (by simp) (taskIdOf t, r) (dictGet_mem _ _ _ hr)

/-- Witness for C3: a two-task batch in which the second task's evaluation
raises; both tasks are looked up successfully under their own ids. -/
theorem C3_every_task_recorded_witness :
    (∃ r, dictGet (run_eval 1 "validation"
          (evalTaskOf
            (fun u => if u.task_id = some "t-bad" then Except.error "boom" else Except.ok ())
            (fun _ _ => Except.ok "<answer>1</answer>") (fun _ => 2))
          [⟨some "t-good", "q1", some "1"⟩, ⟨some "t-bad", "q2", some "2"⟩] 4).task_results
        "t-good" = some r ∧ r.task_id = "t-good")
    ∧ (∃ r, dictGet (run_eval 1 "validation"
          (evalTaskOf
            (fun u => if u.task_id = some "t-bad" then Except.error "boom" else Except.ok ())
            (fun _ _ => Except.ok "<answer>1</answer>") (fun _ => 2))
          [⟨some "t-good", "q1", some "1"⟩, ⟨some "t-bad", "q2", some "2"⟩] 4).task_results
        "t-bad" = some r ∧ r.task_id = "t-bad") :=
  ⟨(C3_every_task_recorded
      (fun u => if u.task_id = some "t-bad" then Except.error "boom" else Except.ok ())
      (fun _ _ => Except.ok "<answer>1</answer>") (fun _ => 2) 1 "validation"
      [⟨some "t-good", "q1", some "1"⟩, ⟨some "t-bad", "q2", some "2"⟩] 4).2
      ⟨some "t-good", "q1", some "1"⟩ (by simp),
    (C3_every_task_recorded
      (fun u => if u.task_id = some "t-bad" then Except.error "boom" else Except.ok ())
      (fun _ _ => Except.ok "<answer>1</answer>") (fun _ => 2) 1 "validation"
      [⟨some "t-good", "q1", some "1"⟩, ⟨some "t-bad", "q2", some "2"⟩] 4).2
      ⟨some "t-bad", "q2", some "2"⟩ (by simp)⟩

/-- C4: when the transport call raises, the task runner returns a result
with the error recorded, is_correct false and the elapsed time accrued so
far; the fault reaches no caller (the embedding of the try/except is a
total function) and every task of a batch run with a failing transport is
still recorded in the summary mapping. -/
theorem C4_transport_failure_recovered :
    ∀ (e : String) (task : GaiaTask) (elapsed : ℚ),
      ((runSingleTask (fun _ => Except.error e) task elapsed).error = some e
        ∧ (runSingleTask (fun _ => Except.error e) task elapsed).is_correct = some false
        ∧ (runSingleTask (fun _ => Except.error e) task elapsed).elapsed_time = some elapsed)
      ∧ ∀ (level : Nat) (split : String) (tasks : List GaiaTask) (T : ℚ)
          (elapsedF : GaiaTask → ℚ), ∀ t ∈ tasks,
          ∃ r, dictGet (run_eval level split
                (fun u => Except.ok (runSingleTask (fun _ => Except.error e) u (elapsedF u)))
                tasks T).task_results (taskIdOf t) = some r := by
  intro e task elapsed
  refine ⟨⟨rfl, rfl, rfl⟩, ?_⟩
  intro level split tasks T elapsedF t ht
  simp only [run_eval_task_results]
  unfold runEvalTasks
  exact dictGet_isSome_of_mem_keys _ _ (runEvalFold_mem_keys _ tasks [] t ht)

/-- Witness for C4: a one-task batch against a transport that always
raises still records the task. -/
theorem C4_transport_failure_recovered_witness :
    ∃ r, dictGet (run_eval 1 "validation"
          (fun u => Except.ok (runSingleTask (fun _ => Except.error "Connection refused") u 3))
          [⟨some "t-w", "q", some "42"⟩] 3).task_results "t-w" = some r :=
  (C4_transport_failure_recovered "Connection refused" ⟨some "t-w", "q", some "42"⟩ 3).2
    1 "validation" [⟨some "t-w", "q", some "42"⟩] 3 (fun _ => 3)
    ⟨some "t-w", "q", some "42"⟩ (by simp)

/-- C8: a task that completes without a transport fault and has no ground
truth yields is_correct absent, never false, no error, and the predicted
answer is the content of the answer tag when one is present and the raw
response text otherwise. -/
theorem C8_no_ground_truth_null :
    ∀ (response : String) (task : GaiaTask) (elapsed : ℚ),
      task.final_answer = none →
      ((runSingleTask (fun _ => Except.ok response) task elapsed).is_correct = none
        ∧ (runSingleTask (fun _ => Except.ok response) task elapsed).error = none
        ∧ (dictGet (parse_tags response) "answer" = none →
            (runSingleTask (fun _ => Except.ok response) task elapsed).predicted_answer
              = some response)
        ∧ ∀ c, dictGet (parse_tags response) "answer" = some c →
            (runSingleTask (fun _ => Except.ok response) task elapsed).predicted_answer
              = some c) := by
  intro response task elapsed h
  refine ⟨?_, rfl, ?_, ?_⟩
  · simp [runSingleTask, h]
  · intro hl
    simp [runSingleTask, hl]
  · intro c hl
    simp [runSingleTask, hl]

/-- Witness for C8: a tagged response with no ground truth available. -/
theorem C8_no_ground_truth_null_witness :
    (runSingleTask (fun _ => Except.ok "<answer>7</answer>") ⟨some "t", "q", none⟩ 0).is_correct
      = none
    ∧ (runSingleTask (fun _ => Except.ok "<answer>7</answer>") ⟨some "t", "q", none⟩ 0).predicted_answer
      = some "7" :=
  ⟨(C8_no_ground_truth_null "<answer>7</answer>" ⟨some "t", "q", none⟩ 0 rfl).1,
    (C8_no_ground_truth_null "<answer>7</answer>" ⟨some "t", "q", none⟩ 0 rfl).2.2.2 "7"
      (by decide)⟩

/-- C10: a present-but-empty ground truth is treated exactly like an
absent one, because scoring is gated on Python truthiness: on a successful
transport the result's is_correct is absent, and in all cases is_correct
coincides with that of the same task with no ground-truth field. -/
theorem C10_empty_ground_truth_skips_scoring :
    ∀ (talk : String → Except String String) (task : GaiaTask) (elapsed : ℚ),
      task.final_answer = some "" →
      ((∀ response, talk (buildTaskPrompt task.question) = Except.ok response →
          (runSingleTask talk task elapsed).is_correct = none)
        ∧ (runSingleTask talk task elapsed).is_correct
            = (runSingleTask talk { task with final_answer := none } elapsed).is_correct) := by
  intro talk task elapsed h
  constructor
  · intro response hr
    simp [runSingleTask, h, hr]
  · cases hr : talk (buildTaskPrompt task.question) with
    | ok response => simp [runSingleTask, h, hr]
    | error e => simp [runSingleTask, h, hr]

/-- Witness for C10 at a concrete task with an empty ground truth. -/
theorem C10_empty_ground_truth_skips_scoring_witness :
    (runSingleTask (fun _ => Except.ok "resp") ⟨some "t", "q", some ""⟩ 0).is_correct = none
    ∧ (runSingleTask (fun _ => Except.ok "resp") ⟨some "t", "q", some ""⟩ 0).is_correct
        = (runSingleTask (fun _ => Except.ok "resp") ⟨some "t", "q", none⟩ 0).is_correct :=
  ⟨(C10_empty_ground_truth_skips_scoring (fun _ => Except.ok "resp")
      ⟨some "t", "q", some ""⟩ 0 rfl).1 "resp" rfl,
    (C10_empty_ground_truth_skips_scoring (fun _ => Except.ok "resp")
      ⟨some "t", "q", some ""⟩ 0 rfl).2⟩

/-- The one-task scenario of the end-to-end accuracy claim: ground truth
"42", a stub executor that immediately answers with the tagged answer. -/
def scenarioTask : GaiaTask :=
  { task_id := some "task-0", question := "What is six times seven?",
    final_answer := some "42" }

/-- The per-task evaluation of the scenario: no outer fault, a transport
that returns the tagged answer at once. -/
def scenarioEvalTask : GaiaTask → Except String TaskResult :=
  evalTaskOf (fun _ => Except.ok ()) (fun _ _ => Except.ok "<answer>42</answer>") (fun _ => 2)

/-- The summary of the one-task scenario run. -/
def scenarioRun : RunSummary := run_eval 1 "validation" scenarioEvalTask [scenarioTask] 2

/-- Counterexample to C2: the code computes accuracy as a percentage, so
the one-task all-correct run yields accuracy 100, not the claimed
correct_tasks / total_tasks = 1.0. -/
theorem C2_accuracy_counterexample :
    scenarioRun.max_score = 1 ∧ scenarioRun.score = 1 ∧ scenarioRun.errors = 0
    ∧ scenarioRun.accuracy = 100 ∧ scenarioRun.accuracy ≠ 1 := by
  have hacc : scenarioRun.accuracy = ((1 : ℕ) : ℚ) / ((1 : ℕ) : ℚ) * 100 := rfl
  refine ⟨rfl, rfl, rfl, ?_, ?_⟩
  · rw [hacc]; norm_num
  · rw [hacc]; norm_num

/-- C2 as amended: at the end of every run the summary reports
accuracy = correct_tasks / total_tasks * 100 and
avg_time = elapsed_total / total_tasks, both 0 when the run is empty with
no division fault (the zero case is the guarded branch, not a fault), and
the one-task all-correct scenario yields total 1, correct 1, errors 0 and
accuracy 100.0. -/
theorem C2_metrics_amended :
    (∀ (level : Nat) (split : String) (evalTask : GaiaTask → Except String TaskResult)
       (tasks : List GaiaTask) (T : ℚ),
      (run_eval level split evalTask tasks T).max_score
          = (run_eval level split evalTask tasks T).task_results.length
      ∧ (run_eval level split evalTask tasks T).score
          = ((run_eval level split evalTask tasks T).task_results.filter
              (fun kv => kv.2.is_correct = some true)).length
      ∧ (run_eval level split evalTask tasks T).accuracy
          = (if 0 < (run_eval level split evalTask tasks T).max_score
             then ((run_eval level split evalTask tasks T).score : ℚ)
                    / ((run_eval level split evalTask tasks T).max_score : ℚ) * 100
             else 0)
      ∧ (run_eval level split evalTask tasks T).avg_time
          = (if 0 < (run_eval level split evalTask tasks T).max_score
             then T / ((run_eval level split evalTask tasks T).max_score : ℚ)
             else 0))
    ∧ (∀ (level : Nat) (split : String) (evalTask : GaiaTask → Except String TaskResult)
         (T : ℚ),
        (run_eval level split evalTask [] T).accuracy = 0
        ∧ (run_eval level split evalTask [] T).avg_time = 0)
    ∧ (scenarioRun.max_score = 1 ∧ scenarioRun.score = 1 ∧ scenarioRun.errors = 0
        ∧ scenarioRun.accuracy = 100) := by
  refine ⟨fun level split evalTask tasks T => ⟨rfl, rfl, rfl, rfl⟩,
    fun level split evalTask T => ⟨rfl, rfl⟩, rfl, rfl, rfl, ?_⟩
  have hacc : scenarioRun.accuracy = ((1 : ℕ) : ℚ) / ((1 : ℕ) : ℚ) * 100 := rfl
  rw [hacc]; norm_num

/-- A search backend that always raises. -/
def failingSearchBackend : JValue → JValue → Except String (List SearchRow) :=
  fun _ _ => Except.error "boom"

/-- A restricted-evaluation backend that always raises. -/
def failingCalcBackend : JValue → Except String JValue :=
  fun _ => Except.error "crash"

/-- Counterexample to C6: dispatching web_search with an argument mapping
that does not bind its parameters (here the empty mapping, missing the
required query argument) raises a TypeError past the dispatch boundary
instead of returning a textual result. -/
theorem C6_dispatch_counterexample :
    execute_tool_call failingSearchBackend failingCalcBackend "web_search" []
      = Except.error "TypeError: web_search() missing required argument: query" := rfl

/-- C6 as amended: an unknown tool name yields the descriptive textual
error result for any argument mapping, a known tool whose argument
mapping binds its parameters always returns a textual result, and each
tool catches its backend's faults and returns the structured textual
error payload; but an argument mapping that does not match the called
tool's signature raises a TypeError past the dispatch boundary. -/
theorem C6_dispatch_amended :
    ∀ (ddgs : JValue → JValue → Except String (List SearchRow))
      (evalExpr : JValue → Except String JValue),
      (∀ (name : String) (args : List (String × JValue)),
        name ≠ "web_search" → name ≠ "python_calculator" →
        execute_tool_call ddgs evalExpr name args
          = Except.ok ("Error: Unknown tool \x27" ++ name ++ "\x27"))
      ∧ (∀ (args : List (String × JValue)) (q mr : JValue),
          bindWebSearchArgs args = Except.ok (q, mr) →
          execute_tool_call ddgs evalExpr "web_search" args
            = Except.ok (web_search ddgs q mr))
      ∧ (∀ (args : List (String × JValue)) (ex : JValue),
          bindCalculatorArgs args = Except.ok ex →
          execute_tool_call ddgs evalExpr "python_calculator" args
            = Except.ok (python_calculator evalExpr ex))
      ∧ (∀ (q mr : JValue) (e : String), ddgs q mr = Except.error e →
          web_search ddgs q mr = "\x7b\"error\": \"Search failed: " ++ e ++ "\"\x7d")
      ∧ (∀ (ex : JValue) (e : String), evalExpr ex = Except.error e →
          python_calculator evalExpr ex
            = "\x7b\"error\": \"Calculation failed: " ++ e ++ "\"\x7d") := by
  intro ddgs evalExpr
  refine ⟨?_, ?_, ?_, ?_, ?_⟩
  · intro name args h1 h2
    simp [execute_tool_call, h1, h2]
  · intro args q mr hb
    simp [execute_tool_call, hb]
  · intro args ex hb
    simp [execute_tool_call, hb]
  · intro q mr e he
    simp [web_search, he]
  · intro ex e he
    simp [python_calculator, he]

/-- Witness for C6 as amended: the unknown-tool result and both
fault-to-payload behaviours at concrete inputs. -/
theorem C6_dispatch_amended_witness :
    execute_tool_call failingSearchBackend failingCalcBackend "frobnicate" []
        = Except.ok "Error: Unknown tool \x27frobnicate\x27"
    ∧ execute_tool_call failingSearchBackend failingCalcBackend "web_search"
          [("query", JValue.str "cats")]
        = Except.ok "\x7b\"error\": \"Search failed: boom\"\x7d"
    ∧ execute_tool_call failingSearchBackend failingCalcBackend "python_calculator"
          [("expression", JValue.str "1/0")]
        = Except.ok "\x7b\"error\": \"Calculation failed: crash\"\x7d" := by
  refine ⟨?_, ?_, ?_⟩
  · exact (C6_dispatch_amended failingSearchBackend failingCalcBackend).1 "frobnicate" []
      (by decide) (by decide)
  · rw [(C6_dispatch_amended failingSearchBackend failingCalcBackend).2.1
        [("query", JValue.str "cats")] (JValue.str "cats") (JValue.num 5) rfl,
      (C6_dispatch_amended failingSearchBackend failingCalcBackend).2.2.2.1
        (JValue.str "cats") (JValue.num 5) "boom" rfl]
    rfl
  · rw [(C6_dispatch_amended failingSearchBackend failingCalcBackend).2.2.1
        [("expression", JValue.str "1/0")] (JValue.str "1/0") rfl,
      (C6_dispatch_amended failingSearchBackend failingCalcBackend).2.2.2.2
        (JValue.str "1/0") "crash" rfl]
    rfl
